import Mathlib

/-!
# Verification of the unsigned CoRIM container (`corim/unsignedcorim.go`)

A shallow embedding of the `corim` package's `UnsignedCorim` aggregate:
its builder operations (`SetID`, `AddComid`, `AddCoswid`, `AddDependentRim`,
`AddProfile`), the top-level validator `Valid`, the per-entity validators
(`Tag.Valid`, `Locator.Valid`, `ValidProfile`), and the codec field mapping
(`ToCBOR` / `FromCBOR` / `FromJSON`).

External collaborators (the `swid`, `comid` and `eat` libraries, and the
configured CBOR/JSON codec engines) are not part of the source fragment;
they are modelled from the spec by their observable behaviour, each such
definition carrying a doc comment saying so.
-/

set_option autoImplicit false

/-- A byte. -/
abbrev Byte := Fin 256

/-- Modelled from the spec (the `swid` library is outside the source
fragment): the Identifier is a tag/UUID-like value; `TagID.empty` is the
all-zero/empty sentinel that the Go zero value `swid.TagID{}` denotes. -/
inductive TagID where
  | empty
  | str (s : String)
  | uuid (b : List Byte)
deriving DecidableEq, Repr

/-- The supported input encodings of an identifier handed to `SetID`:
a string or a binary (byte-array) form. -/
inductive TagIDInput where
  | str (s : String)
  | bytes (b : List Byte)
deriving DecidableEq, Repr

/-- Modelled from the spec (the `swid` library is outside the source
fragment): `swid.NewTagID` normalizes the supplied value to the canonical
Identifier representation and fails (returns nil, here `none`) if the input
cannot be normalized, e.g. an empty string or a byte array that is not a
16-byte UUID.  A successful result is never the empty sentinel. -/
def NewTagID : TagIDInput → Option TagID
  | TagIDInput.str s => if s.isEmpty then none else some (TagID.str s)
  | TagIDInput.bytes b => if b.length = 16 then some (TagID.uuid b) else none

/-- Modelled from the spec (the `comid` library is outside the source
fragment): a CoMID document is opaque to the aggregate, which uses only its
validator and its serializer.  `valid` models whether `c.Valid()` returns
nil; `cbor` models `c.ToCBOR()`: `some bytes` on success, `none` on error. -/
structure Comid where
  valid : Bool
  cbor : Option (List Byte)
deriving DecidableEq, Repr

/-- Modelled from the spec (the `swid` library is outside the source
fragment): a CoSWID document is opaque to the aggregate.  `valid` models
whether the document would pass its own format's validator — the `swid`
library currently exposes no such check, and the aggregate code never
consults it (see the comment in `AddCoswid`).  `cbor` models `c.ToCBOR()`:
`some bytes` on success, `none` on error. -/
structure SoftwareIdentity where
  valid : Bool
  cbor : Option (List Byte)
deriving DecidableEq, Repr

/-- Modelled from the spec (the `swid` library is outside the source
fragment): a Hash-Reference value, an (algorithm-id, digest-bytes) pair. -/
structure HashEntry where
  HashAlgID : Nat
  HashValue : List Byte
deriving DecidableEq, Repr

/-- Modelled from the spec (the `swid` library is outside the source
fragment): digest length mandated by each known hash algorithm identifier
(IANA named-information registry: 1 = sha-256, 7 = sha-384, 8 = sha-512). -/
def hashAlgLen : Nat → Option Nat
  | 1 => some 32
  | 7 => some 48
  | 8 => some 64
  | _ => none

/-- Modelled from the spec (the `swid` library is outside the source
fragment): `swid.ValidHashEntry` performs algorithm-specific length
validation of the digest.  `none` = success, `some msg` = error. -/
def ValidHashEntry (algID : Nat) (value : List Byte) : Option String :=
  match hashAlgLen algID with
  | none => some "unknown hash algorithm"
  | some n => if value.length = n then none else some "length mismatch for hash algorithm"

/-- `comid.TaggedURI` is a string-backed URI type. -/
abbrev TaggedURI := String

/-- `comid.TaggedURI.Empty()`: true iff the URI equals the empty string. -/
def TaggedURI.Empty (u : TaggedURI) : Bool := u = ""

/-- A Profile Identifier (`eat.Profile`): a tagged union of a URI form and
an OID form.  Modelled from the spec (the `eat` library is outside the
source fragment). -/
inductive Profile where
  | uri (s : String)
  | oid (s : String)
deriving DecidableEq, Repr

/-- `eat.Profile.IsURI()`. -/
def Profile.IsURI : Profile → Bool
  | Profile.uri _ => true
  | Profile.oid _ => false

/-- `eat.Profile.IsOID()`. -/
def Profile.IsOID : Profile → Bool
  | Profile.uri _ => false
  | Profile.oid _ => true

/-- Modelled from the spec (the `eat` library is outside the source
fragment): `eat.NewProfile` parses the string as URI-or-OID and fails if it
matches neither form.  The two form matchers are parameters of the model. -/
def NewProfile (isURI isOID : String → Bool) (s : String) : Option Profile :=
  if isURI s then some (Profile.uri s)
  else if isOID s then some (Profile.oid s)
  else none

/-- `Tag` is either a CBOR-encoded CoMID or CoSWID: an opaque byte string
(Go `type Tag []byte`). -/
abbrev Tag := List Byte

/-- `Tag.Valid`: the only possible check is that the tag is not
zero-length. -/
def Tag.Valid (o : Tag) : Option String :=
  if o.length = 0 then some "empty tag" else none

/-- `Locator` is the internal representation of the corim-locator-map. -/
structure Locator where
  Href : TaggedURI
  Thumbprint : Option HashEntry
deriving DecidableEq, Repr

/-- `Locator.Valid`: the href must be non-empty and the thumbprint, when
present, must pass hash-entry validation. -/
def Locator.Valid (o : Locator) : Option String :=
  if TaggedURI.Empty o.Href then some "empty href"
  else
    match o.Thumbprint with
    | none => none
    | some tp =>
      match ValidHashEntry tp.HashAlgID tp.HashValue with
      | some e => some ("invalid locator thumbprint: " ++ e)
      | none => none

/-- `ValidProfile` checks that the supplied profile is in one of the
supported formats (i.e., URI or OID). -/
def ValidProfile (p : Profile) : Option String :=
  if !p.IsOID && !p.IsURI then some "profile should be OID or URI" else none

/-- `UnsignedCorim` is the top-level representation of the
unsigned-corim-map.  Go's `*[]T` optional fields become `Option (List T)`. -/
structure UnsignedCorim where
  ID : TagID
  Tags : List Tag
  DependentRims : Option (List Locator)
  Profiles : Option (List Profile)
deriving DecidableEq, Repr

/-- `NewUnsignedCorim` instantiates an empty `UnsignedCorim` (the Go zero
value: sentinel id, nil tag list, nil optional lists). -/
def NewUnsignedCorim : UnsignedCorim :=
  { ID := TagID.empty, Tags := [], DependentRims := none, Profiles := none }

/-- `d9 01fa # tag(506)` — the fixed CoMID tag bytes prepended by
`AddComid`. -/
def comidTag : List Byte := [0xd9, 0x01, 0xfa]

/-- `d9 01f9 # tag(505)` — the fixed CoSWID tag bytes prepended by
`AddCoswid`. -/
def coswidTag : List Byte := [0xd9, 0x01, 0xf9]

/-- `SetID` on a non-nil receiver: sets the corim-id to the normalized
value.  Returns the pointee after the call and whether the returned pointer
is non-nil (`false` models the Go method returning `nil` on failure; the
failure paths return before any mutation). -/
def UnsignedCorim.SetID (o : UnsignedCorim) (v : TagIDInput) : UnsignedCorim × Bool :=
  match NewTagID v with
  | none => (o, false)
  | some tagID => ({ o with ID := tagID }, true)

/-- `AddComid` on a non-nil receiver: validates the CoMID with its own
validator, serializes it, prepends `comidTag` and appends the result to the
tags array.  Failure (`false`) returns before any mutation. -/
def UnsignedCorim.AddComid (o : UnsignedCorim) (c : Comid) : UnsignedCorim × Bool :=
  if !c.valid then (o, false)
  else
    match c.cbor with
    | none => (o, false)
    | some comidCBOR =>
      ({ o with Tags := o.Tags ++ [comidTag ++ comidCBOR] }, true)

/-- `AddCoswid` on a non-nil receiver: the `swid` package offers no
validation interface, so the input is taken for granted; it is serialized,
prefixed with `coswidTag` and appended to the tags array.  Failure
(`false`, serialization error only) returns before any mutation. -/
def UnsignedCorim.AddCoswid (o : UnsignedCorim) (c : SoftwareIdentity) : UnsignedCorim × Bool :=
  match c.cbor with
  | none => (o, false)
  | some coswidCBOR =>
    ({ o with Tags := o.Tags ++ [coswidTag ++ coswidCBOR] }, true)

/-- `AddDependentRim` on a non-nil receiver: builds a `Locator` from the
arguments with no validation, lazily creates the dependent-RIM list and
appends.  It always succeeds. -/
def UnsignedCorim.AddDependentRim (o : UnsignedCorim) (href : String)
    (thumbprint : Option HashEntry) : UnsignedCorim × Bool :=
  let l : Locator := { Href := href, Thumbprint := thumbprint }
  let rims := match o.DependentRims with
    | none => []
    | some ls => ls
  ({ o with DependentRims := some (rims ++ [l]) }, true)

/-- `AddProfile` on a non-nil receiver: parses the string with
`eat.NewProfile` (the model's form matchers are parameters), failing before
any mutation if it is neither a URI nor an OID; on success lazily creates
the profile list and appends. -/
def UnsignedCorim.AddProfile (isURI isOID : String → Bool) (o : UnsignedCorim)
    (urlOrOID : String) : UnsignedCorim × Bool :=
  match NewProfile isURI isOID urlOrOID with
  | none => (o, false)
  | some p =>
    let ps := match o.Profiles with
      | none => []
      | some qs => qs
    ({ o with Profiles := some (ps ++ [p]) }, true)

/-- First entry of the list failing the given validator, with its zero-based
position (offset by the accumulator `i`). -/
def firstFailureAux {α : Type} (f : α → Option String) : Nat → List α → Option (Nat × String)
  | _, [] => none
  | i, x :: xs =>
    match f x with
    | some e => some (i, e)
    | none => firstFailureAux f (i + 1) xs

/-- First entry of the list failing the given validator, with its zero-based
position: the shape of each `for i, x := range` validation loop in
`UnsignedCorim.Valid`. -/
def firstFailure {α : Type} (f : α → Option String) (xs : List α) : Option (Nat × String) :=
  firstFailureAux f 0 xs

/-- The structured errors returned by `UnsignedCorim.Valid`, carrying the
failing category, the zero-based position and the underlying cause, as the
Go error strings do. -/
inductive CorimError where
  | emptyID
  | noTags
  | tagInvalid (pos : Nat) (cause : String)
  | dependentRimInvalid (pos : Nat) (cause : String)
  | profileInvalid (pos : Nat) (cause : String)
deriving DecidableEq, Repr

/-- `UnsignedCorim.Valid`: the top-level validator.  Checks, in order: the
id against the empty sentinel, the tag list for non-emptiness, each tag,
each dependent-RIM locator (when the list is present), each profile (when
the list is present); it returns the first error found. -/
def UnsignedCorim.Valid (o : UnsignedCorim) : Option CorimError :=
  if o.ID = TagID.empty then some CorimError.emptyID
  else if o.Tags.length = 0 then some CorimError.noTags
  else
    match firstFailure Tag.Valid o.Tags with
    | some ie => some (CorimError.tagInvalid ie.1 ie.2)
    | none =>
      match (match o.DependentRims with
             | none => none
             | some rs => firstFailure Locator.Valid rs) with
      | some ie => some (CorimError.dependentRimInvalid ie.1 ie.2)
      | none =>
        match (match o.Profiles with
               | none => none
               | some ps => firstFailure ValidProfile ps) with
        | some ie => some (CorimError.profileInvalid ie.1 ie.2)
        | none => none

/-- Pointer-level `SetID` with the Go nil-receiver guard: `none` models a
nil `*UnsignedCorim`; the method body runs only when the receiver is
non-nil, and a failing run returns nil. -/
def SetIDPtr (o : Option UnsignedCorim) (v : TagIDInput) : Option UnsignedCorim :=
  match o with
  | none => none
  | some c =>
    let r := c.SetID v
    if r.2 then some r.1 else none

/-- Pointer-level `AddComid` with the Go nil-receiver guard. -/
def AddComidPtr (o : Option UnsignedCorim) (c : Comid) : Option UnsignedCorim :=
  match o with
  | none => none
  | some x =>
    let r := x.AddComid c
    if r.2 then some r.1 else none

/-- Pointer-level `AddCoswid` with the Go nil-receiver guard. -/
def AddCoswidPtr (o : Option UnsignedCorim) (c : SoftwareIdentity) : Option UnsignedCorim :=
  match o with
  | none => none
  | some x =>
    let r := x.AddCoswid c
    if r.2 then some r.1 else none

/-- Pointer-level `AddDependentRim` with the Go nil-receiver guard. -/
def AddDependentRimPtr (o : Option UnsignedCorim) (href : String)
    (thumbprint : Option HashEntry) : Option UnsignedCorim :=
  match o with
  | none => none
  | some x =>
    let r := x.AddDependentRim href thumbprint
    if r.2 then some r.1 else none

/-- Pointer-level `AddProfile` with the Go nil-receiver guard. -/
def AddProfilePtr (isURI isOID : String → Bool) (o : Option UnsignedCorim)
    (urlOrOID : String) : Option UnsignedCorim :=
  match o with
  | none => none
  | some x =>
    let r := UnsignedCorim.AddProfile isURI isOID x urlOrOID
    if r.2 then some r.1 else none

/-- Modelled from the spec (the configured CBOR/JSON codec engines `em`,
`dm` and `encoding/json` are outside the source fragment): a wire-format
field payload, one constructor per aggregate field, kept symbolic because
the sub-encoders are opaque collaborators. -/
inductive WireVal where
  | vid (t : TagID)
  | vtags (ts : List Tag)
  | vlocs (ls : List Locator)
  | vprofs (ps : List Profile)
deriving DecidableEq, Repr

/-- Modelled from the spec: the binary wire form is a map from the integer
keys of the `cbor:"n,keyasint"` field tags to the field payloads; the
`omitempty` optional fields (keys 2 and 3) are omitted entirely when the
pointer is nil. -/
abbrev CborMap := List (Nat × WireVal)

/-- Modelled from the spec: the text wire form maps the lowercase
hyphenated `json:"..."` field names to the field payloads, with the same
optional-field omission rule. -/
abbrev JsonMap := List (String × WireVal)

/-- `UnsignedCorim.ToCBOR`: serializes the aggregate to the binary wire
form (key 0 = id, key 1 = tags, key 2 = dependent rims if present, key 3 =
profiles if present).  Modelled from the spec at the field-mapping level. -/
def UnsignedCorim.ToCBOR (o : UnsignedCorim) : CborMap :=
  [(0, WireVal.vid o.ID), (1, WireVal.vtags o.Tags)]
    ++ (match o.DependentRims with
        | none => []
        | some ls => [(2, WireVal.vlocs ls)])
    ++ (match o.Profiles with
        | none => []
        | some ps => [(3, WireVal.vprofs ps)])

/-- `UnsignedCorim.ToJSON`: the text-form serialization (via the struct's
`json` names).  Modelled from the spec at the field-mapping level. -/
def UnsignedCorim.ToJSON (o : UnsignedCorim) : JsonMap :=
  [("corim-id", WireVal.vid o.ID), ("tags", WireVal.vtags o.Tags)]
    ++ (match o.DependentRims with
        | none => []
        | some ls => [("dependent-rims", WireVal.vlocs ls)])
    ++ (match o.Profiles with
        | none => []
        | some ps => [("profiles", WireVal.vprofs ps)])

/-- Decode of the id field: an absent key leaves the Go zero value (the
empty sentinel); a payload of the wrong shape is a decode error. -/
def decodeID : Option WireVal → Option TagID
  | none => some TagID.empty
  | some (WireVal.vid t) => some t
  | some _ => none

/-- Decode of the tags field: an absent key leaves the nil slice. -/
def decodeTags : Option WireVal → Option (List Tag)
  | none => some []
  | some (WireVal.vtags ts) => some ts
  | some _ => none

/-- Decode of the optional dependent-rims field: an absent key leaves the
nil pointer. -/
def decodeLocs : Option WireVal → Option (Option (List Locator))
  | none => some none
  | some (WireVal.vlocs ls) => some (some ls)
  | some _ => none

/-- Decode of the optional profiles field: an absent key leaves the nil
pointer. -/
def decodeProfs : Option WireVal → Option (Option (List Profile))
  | none => some none
  | some (WireVal.vprofs ps) => some (some ps)
  | some _ => none

/-- `FromCBOR` into a fresh receiver: reconstructs the aggregate shape
field-by-field from the integer-keyed map with no semantic validation.
Modelled from the spec at the field-mapping level; `none` is a codec
error. -/
def FromCBOR (m : CborMap) : Option UnsignedCorim :=
  match decodeID (m.lookup 0), decodeTags (m.lookup 1),
        decodeLocs (m.lookup 2), decodeProfs (m.lookup 3) with
  | some i, some ts, some ls, some ps =>
    some { ID := i, Tags := ts, DependentRims := ls, Profiles := ps }
  | _, _, _, _ => none

/-- `FromJSON` into a fresh receiver: the text-form decode, same shape
reconstruction keyed by field names, no semantic validation.  Modelled from
the spec at the field-mapping level. -/
def FromJSON (m : JsonMap) : Option UnsignedCorim :=
  match decodeID (m.lookup "corim-id"), decodeTags (m.lookup "tags"),
        decodeLocs (m.lookup "dependent-rims"), decodeProfs (m.lookup "profiles") with
  | some i, some ts, some ls, some ps =>
    some { ID := i, Tags := ts, DependentRims := ls, Profiles := ps }
  | _, _, _, _ => none

/-- Concrete URI form matcher used to instantiate the profile-parser model
in witnesses. -/
def uriW : String → Bool := fun s => s = "https://example.org/profile"

/-- Concrete OID form matcher used to instantiate the profile-parser model
in witnesses. -/
def oidW : String → Bool := fun s => s = "2.16.840.1.101.3.4"

theorem firstFailureAux_eq {α : Type} (f : α → Option String) (xs : List α) :
    ∀ (k i : Nat) (h : i < xs.length) (e : String),
      f (xs.get ⟨i, h⟩) = some e →
      (∀ j (hj : j < i), f (xs.get ⟨j, Nat.lt_trans hj h⟩) = none) →
      firstFailureAux f k xs = some (k + i, e) := by
  induction xs with
  | nil =>
    intro k i h e _ _
    exact absurd h (Nat.not_lt_zero i)
  | cons x xs ih =>
    intro k i h e hz hfirst
    cases i with
    | zero =>
      simp only [List.get] at hz
      simp [firstFailureAux, hz]
    | succ i =>
      have hx : f x = none := hfirst 0 (Nat.succ_pos i)
      have hi : i < xs.length := Nat.lt_of_succ_lt_succ h
      have hz' : f (xs.get ⟨i, hi⟩) = some e := hz
      have hfirst' : ∀ j (hj : j < i), f (xs.get ⟨j, Nat.lt_trans hj hi⟩) = none := by
        intro j hj
        exact hfirst (j + 1) (Nat.succ_lt_succ hj)
      have hrec := ih (k + 1) i hi e hz' hfirst'
      have harith : k + 1 + i = k + (i + 1) := by omega
      simp [firstFailureAux, hx, hrec, harith]

theorem valid_none_parts (o : UnsignedCorim) (h : o.Valid = none) :
    ¬ o.ID = TagID.empty ∧ ¬ o.Tags.length = 0 ∧
      firstFailure Tag.Valid o.Tags = none := by
  unfold UnsignedCorim.Valid at h
  by_cases h1 : o.ID = TagID.empty
  · rw [if_pos h1] at h
    exact absurd h (by simp)
  · rw [if_neg h1] at h
    by_cases h2 : o.Tags.length = 0
    · rw [if_pos h2] at h
      exact absurd h (by simp)
    · rw [if_neg h2] at h
      refine ⟨h1, h2, ?_⟩
      cases hff : firstFailure Tag.Valid o.Tags with
      | none => rfl
      | some ie =>
        rw [hff] at h
        exact absurd h (by simp)

theorem fromCBOR_toCBOR (o : UnsignedCorim) : FromCBOR o.ToCBOR = some o := by
  rcases o with ⟨i, ts, rs, ps⟩
  cases rs <;> cases ps <;> rfl

theorem fromJSON_toJSON (o : UnsignedCorim) : FromJSON o.ToJSON = some o := by
  rcases o with ⟨i, ts, rs, ps⟩
  cases rs <;> cases ps <;> rfl

/-- C1 counterexample: the claim says both sub-manifest kinds are validated
with their format's own validator before insertion, with failure leaving the
tag list unchanged; but `AddCoswid` never consults a validator, so a CoSWID
that fails its format's validator is inserted anyway and the call reports
success. -/
theorem addSubManifest_validation_cex :
    ¬ (∀ (s : SoftwareIdentity) (o : UnsignedCorim), s.valid = false →
        (o.AddCoswid s).2 = false ∧ (o.AddCoswid s).1 = o) := by
  intro hclaim
  exact absurd (hclaim ⟨false, some [0]⟩ NewUnsignedCorim rfl).1 (by decide)

/-- C1 (amended): `AddComid` validates the CoMID with its own validator and
an invalid CoMID is rejected with the container unchanged; `AddCoswid`
performs no validation (the `swid` library exposes none) and fails only on
serialization failure, again leaving the container unchanged, while a
serializable CoSWID is always appended. -/
theorem addSubManifest_validation_amended :
    (∀ (c : Comid) (o : UnsignedCorim), c.valid = false →
       (o.AddComid c).2 = false ∧ (o.AddComid c).1 = o)
    ∧ (∀ (s : SoftwareIdentity) (o : UnsignedCorim), s.cbor = none →
       (o.AddCoswid s).2 = false ∧ (o.AddCoswid s).1 = o)
    ∧ (∀ (s : SoftwareIdentity) (o : UnsignedCorim) (bs : List Byte), s.cbor = some bs →
       (o.AddCoswid s).2 = true ∧ (o.AddCoswid s).1.Tags = o.Tags ++ [coswidTag ++ bs]) := by
  refine ⟨?_, ?_, ?_⟩
  · intro c o hc
    simp [UnsignedCorim.AddComid, hc]
  · intro s o hs
    simp [UnsignedCorim.AddCoswid, hs]
  · intro s o bs hs
    simp [UnsignedCorim.AddCoswid, hs]

/-- C1 witness: the amended theorem applied at concrete inputs — an invalid
CoMID is rejected without mutation, a CoSWID that fails to serialize is
rejected without mutation, and a serializable CoSWID is appended. -/
theorem addSubManifest_validation_witness :
    ((NewUnsignedCorim.AddComid ⟨false, some [0]⟩).2 = false
      ∧ (NewUnsignedCorim.AddComid ⟨false, some [0]⟩).1 = NewUnsignedCorim)
    ∧ ((NewUnsignedCorim.AddCoswid ⟨true, none⟩).2 = false
      ∧ (NewUnsignedCorim.AddCoswid ⟨true, none⟩).1 = NewUnsignedCorim)
    ∧ ((NewUnsignedCorim.AddCoswid ⟨true, some [0xa0]⟩).2 = true
      ∧ (NewUnsignedCorim.AddCoswid ⟨true, some [0xa0]⟩).1.Tags
          = NewUnsignedCorim.Tags ++ [coswidTag ++ [0xa0]]) :=
  ⟨addSubManifest_validation_amended.1 ⟨false, some [0]⟩ NewUnsignedCorim rfl,
   addSubManifest_validation_amended.2.1 ⟨true, none⟩ NewUnsignedCorim rfl,
   addSubManifest_validation_amended.2.2 ⟨true, some [0xa0]⟩ NewUnsignedCorim [0xa0] rfl⟩

/-- C2: a sub-manifest added via `AddComid` / `AddCoswid` lands in the tag
list as exactly the 3-byte prefix `D9 01 FA` (CoMID) or `D9 01 F9`
(CoSWID) followed immediately by the document's serialized bytes. -/
theorem tag_prefix_bytes :
    (∀ (c : Comid) (o : UnsignedCorim) (bs : List Byte),
       c.valid = true → c.cbor = some bs →
       (o.AddComid c).2 = true
         ∧ (o.AddComid c).1.Tags = o.Tags ++ [[0xd9, 0x01, 0xfa] ++ bs])
    ∧ (∀ (s : SoftwareIdentity) (o : UnsignedCorim) (bs : List Byte),
       s.valid = true → s.cbor = some bs →
       (o.AddCoswid s).2 = true
         ∧ (o.AddCoswid s).1.Tags = o.Tags ++ [[0xd9, 0x01, 0xf9] ++ bs]) := by
  constructor
  · intro c o bs hv hc
    simp [UnsignedCorim.AddComid, hv, hc, comidTag]
  · intro s o bs _ hc
    simp [UnsignedCorim.AddCoswid, hc, coswidTag]

/-- C2 witness: the prefix-bytes theorem applied to a concrete CoMID and a
concrete CoSWID added to the empty container. -/
theorem tag_prefix_bytes_witness :
    ((NewUnsignedCorim.AddComid ⟨true, some [0xa0]⟩).2 = true
      ∧ (NewUnsignedCorim.AddComid ⟨true, some [0xa0]⟩).1.Tags
          = NewUnsignedCorim.Tags ++ [[0xd9, 0x01, 0xfa] ++ [0xa0]])
    ∧ ((NewUnsignedCorim.AddCoswid ⟨true, some [0xa1]⟩).2 = true
      ∧ (NewUnsignedCorim.AddCoswid ⟨true, some [0xa1]⟩).1.Tags
          = NewUnsignedCorim.Tags ++ [[0xd9, 0x01, 0xf9] ++ [0xa1]]) :=
  ⟨tag_prefix_bytes.1 ⟨true, some [0xa0]⟩ NewUnsignedCorim [0xa0] rfl rfl,
   tag_prefix_bytes.2 ⟨true, some [0xa1]⟩ NewUnsignedCorim [0xa1] rfl rfl⟩

/-- C3: the validator checks categories in fixed order and stops at the
first failing one: an empty-sentinel id yields the "empty id" error no
matter what else is wrong; with a good id, an empty tag list yields
"no tags"; a freshly constructed container yields "empty id". -/
theorem valid_category_order_empty_id :
    (∀ o : UnsignedCorim, o.ID = TagID.empty → o.Valid = some CorimError.emptyID)
    ∧ (∀ o : UnsignedCorim, o.ID ≠ TagID.empty → o.Tags = [] →
        o.Valid = some CorimError.noTags)
    ∧ NewUnsignedCorim.Valid = some CorimError.emptyID := by
  refine ⟨?_, ?_, by decide⟩
  · intro o h
    simp [UnsignedCorim.Valid, h]
  · intro o h1 h2
    simp [UnsignedCorim.Valid, h1, h2]

/-- C3 witness: the ordering theorem applied to a container with both an
empty id and an empty tag list (reports "empty id"), and to one with a good
id and no tags (reports "no tags"). -/
theorem valid_category_order_empty_id_witness :
    (UnsignedCorim.Valid
        { ID := TagID.empty, Tags := [], DependentRims := none, Profiles := none }
      = some CorimError.emptyID)
    ∧ (UnsignedCorim.Valid
        { ID := TagID.str "x", Tags := [], DependentRims := none, Profiles := none }
      = some CorimError.noTags) :=
  ⟨valid_category_order_empty_id.1 _ rfl,
   valid_category_order_empty_id.2.1 _ (by decide) rfl⟩

/-- C4: with a good id, if some tag is zero-length then `Valid` reports a
category-3 error carrying the zero-based index of the first such tag —
whatever the later tags, locators and profiles contain. -/
theorem valid_first_bad_tag_position (o : UnsignedCorim) (i : Nat)
    (h : i < o.Tags.length) (hid : o.ID ≠ TagID.empty)
    (hz : (o.Tags.getD i []).length = 0)
    (hfirst : ∀ j, j < i → (o.Tags.getD j []).length ≠ 0) :
    o.Valid = some (CorimError.tagInvalid i "empty tag") := by
  have hlen : ¬ o.Tags.length = 0 := by omega
  have hzg : (o.Tags.get ⟨i, h⟩).length = 0 := by
    rw [List.get_eq_getElem, ← List.getD_eq_getElem o.Tags [] h]
    exact hz
  have hff : firstFailure Tag.Valid o.Tags = some (i, "empty tag") := by
    have hmain := firstFailureAux_eq Tag.Valid o.Tags 0 i h "empty tag"
      (by simp only [Tag.Valid]; rw [if_pos hzg])
      (by
        intro j hj
        have hjg : (o.Tags.get ⟨j, Nat.lt_trans hj h⟩).length ≠ 0 := by
          rw [List.get_eq_getElem, ← List.getD_eq_getElem o.Tags [] (Nat.lt_trans hj h)]
          exact hfirst j hj
        simp only [Tag.Valid]
        rw [if_neg hjg])
    simpa [firstFailure] using hmain
  simp [UnsignedCorim.Valid, hid, hlen, hff]

/-- C4 witness: the position theorem applied to a container whose second
tag (index 1) is the first zero-length one. -/
theorem valid_first_bad_tag_position_witness :
    UnsignedCorim.Valid
        { ID := TagID.str "x", Tags := [[1], [], [2]],
          DependentRims := none, Profiles := none }
      = some (CorimError.tagInvalid 1 "empty tag") :=
  valid_first_bad_tag_position
    { ID := TagID.str "x", Tags := [[1], [], [2]],
      DependentRims := none, Profiles := none }
    1 (by decide) (by decide) (by decide) (by decide)

/-- C5: deserializing the bytes produced by serializing a structurally
valid container yields a structurally equal container, in both the binary
and the text wire format. -/
theorem roundtrip_valid_corim (o : UnsignedCorim) (_h : o.Valid = none) :
    FromCBOR o.ToCBOR = some o ∧ FromJSON o.ToJSON = some o :=
  ⟨fromCBOR_toCBOR o, fromJSON_toJSON o⟩

/-- C5 witness: the round-trip theorem applied to a concrete valid
container. -/
theorem roundtrip_valid_corim_witness :
    FromCBOR (UnsignedCorim.ToCBOR
        { ID := TagID.str "x", Tags := [[1]], DependentRims := none, Profiles := none })
      = some { ID := TagID.str "x", Tags := [[1]], DependentRims := none, Profiles := none }
    ∧ FromJSON (UnsignedCorim.ToJSON
        { ID := TagID.str "x", Tags := [[1]], DependentRims := none, Profiles := none })
      = some { ID := TagID.str "x", Tags := [[1]], DependentRims := none, Profiles := none } :=
  roundtrip_valid_corim
    { ID := TagID.str "x", Tags := [[1]], DependentRims := none, Profiles := none }
    (by decide)

/-- C6: any failing builder operation leaves the pointee exactly as it was
(no partial mutation); in particular `SetID` fails on the empty string and
leaves the id unchanged. -/
theorem builder_failure_frame :
    (∀ (o : UnsignedCorim) (v : TagIDInput),
       (o.SetID v).2 = false → (o.SetID v).1 = o)
    ∧ (∀ (o : UnsignedCorim) (c : Comid),
       (o.AddComid c).2 = false → (o.AddComid c).1 = o)
    ∧ (∀ (o : UnsignedCorim) (s : SoftwareIdentity),
       (o.AddCoswid s).2 = false → (o.AddCoswid s).1 = o)
    ∧ (∀ (isURI isOID : String → Bool) (o : UnsignedCorim) (s : String),
       (UnsignedCorim.AddProfile isURI isOID o s).2 = false →
         (UnsignedCorim.AddProfile isURI isOID o s).1 = o)
    ∧ (∀ o : UnsignedCorim,
       (o.SetID (TagIDInput.str "")).2 = false
         ∧ (o.SetID (TagIDInput.str "")).1 = o) := by
  refine ⟨?_, ?_, ?_, ?_, ?_⟩
  · intro o v h
    rcases hnv : NewTagID v with _ | t
    · simp [UnsignedCorim.SetID, hnv]
    · simp [UnsignedCorim.SetID, hnv] at h
  · intro o c h
    rcases c with ⟨cv, cc⟩
    cases cv
    · rfl
    · cases cc with
      | none => rfl
      | some bs => simp [UnsignedCorim.AddComid] at h
  · intro o s h
    rcases s with ⟨sv, sc⟩
    cases sc with
    | none => rfl
    | some bs => simp [UnsignedCorim.AddCoswid] at h
  · intro isURI isOID o s h
    rcases hp : NewProfile isURI isOID s with _ | p
    · simp [UnsignedCorim.AddProfile, hp]
    · simp [UnsignedCorim.AddProfile, hp] at h
  · intro o
    exact ⟨rfl, rfl⟩

/-- C6 witness: the frame theorem applied to concrete failing calls — a bad
id, an invalid CoMID, a CoSWID failing serialization, an unparsable
profile, and the empty-string id. -/
theorem builder_failure_frame_witness :
    ((NewUnsignedCorim.SetID (TagIDInput.str "")).2 = false
      ∧ (NewUnsignedCorim.SetID (TagIDInput.str "")).1 = NewUnsignedCorim)
    ∧ ((NewUnsignedCorim.AddComid ⟨false, some [0]⟩).1 = NewUnsignedCorim)
    ∧ ((NewUnsignedCorim.AddCoswid ⟨true, none⟩).1 = NewUnsignedCorim)
    ∧ (UnsignedCorim.AddProfile uriW oidW NewUnsignedCorim "nope").1 = NewUnsignedCorim :=
  ⟨builder_failure_frame.2.2.2.2 NewUnsignedCorim,
   builder_failure_frame.2.1 NewUnsignedCorim ⟨false, some [0]⟩ (by decide),
   builder_failure_frame.2.2.1 NewUnsignedCorim ⟨true, none⟩ (by decide),
   builder_failure_frame.2.2.2.1 uriW oidW NewUnsignedCorim "nope" (by decide)⟩

/-- C7: `AddDependentRim` validates nothing — it always succeeds, appends
the locator built from its arguments to the lazily created list and touches
no other field; the defect surfaces only in `Valid`, which on an otherwise
valid container reports the category-4 error at position 0 with cause
"empty href". -/
theorem addDependentRim_no_validation :
    (∀ (o : UnsignedCorim) (href : String) (tp : Option HashEntry),
       (o.AddDependentRim href tp).2 = true
       ∧ (o.AddDependentRim href tp).1.DependentRims
           = some ((o.DependentRims.getD []) ++ [{ Href := href, Thumbprint := tp }])
       ∧ (o.AddDependentRim href tp).1.ID = o.ID
       ∧ (o.AddDependentRim href tp).1.Tags = o.Tags
       ∧ (o.AddDependentRim href tp).1.Profiles = o.Profiles)
    ∧ (∀ o : UnsignedCorim, o.Valid = none → o.DependentRims = none →
       ((o.AddDependentRim "" none).1).Valid
         = some (CorimError.dependentRimInvalid 0 "empty href")) := by
  constructor
  · intro o href tp
    rcases hd : o.DependentRims with _ | ls
    · simp [UnsignedCorim.AddDependentRim, hd]
    · simp [UnsignedCorim.AddDependentRim, hd]
  · intro o hv hd
    obtain ⟨h1, h2, h3⟩ := valid_none_parts o hv
    have hc : (o.AddDependentRim "" none).1
        = { o with DependentRims := some [{ Href := "", Thumbprint := none }] } := by
      simp [UnsignedCorim.AddDependentRim, hd]
    have hloc : firstFailure Locator.Valid [{ Href := "", Thumbprint := none }]
        = some (0, "empty href") := rfl
    rw [hc]
    simp [UnsignedCorim.Valid, h1, h2, h3, hloc]

/-- C7 witness: the theorem applied to a concrete valid container with no
dependent RIMs: adding the empty-href locator succeeds, and validation
then fails at category 4, position 0, "empty href". -/
theorem addDependentRim_no_validation_witness :
    ((UnsignedCorim.AddDependentRim
        { ID := TagID.str "x", Tags := [[1]], DependentRims := none, Profiles := none }
        "" none).2 = true)
    ∧ ((UnsignedCorim.AddDependentRim
        { ID := TagID.str "x", Tags := [[1]], DependentRims := none, Profiles := none }
        "" none).1.Valid
      = some (CorimError.dependentRimInvalid 0 "empty href")) :=
  ⟨(addDependentRim_no_validation.1
      { ID := TagID.str "x", Tags := [[1]], DependentRims := none, Profiles := none }
      "" none).1,
   addDependentRim_no_validation.2
      { ID := TagID.str "x", Tags := [[1]], DependentRims := none, Profiles := none }
      (by decide) rfl⟩

/-- C8: `AddProfile` parses its argument as URI-or-OID: the parse succeeds
exactly when one of the two forms matches; on a string matching neither it
fails without touching the profile list, and on a parsed profile it appends
to the lazily created list. -/
theorem addProfile_parse :
    (∀ (isURI isOID : String → Bool) (s : String),
       (NewProfile isURI isOID s).isSome = (isURI s || isOID s))
    ∧ (∀ (isURI isOID : String → Bool) (o : UnsignedCorim) (s : String),
       isURI s = false → isOID s = false →
       (UnsignedCorim.AddProfile isURI isOID o s).2 = false
         ∧ (UnsignedCorim.AddProfile isURI isOID o s).1 = o)
    ∧ (∀ (isURI isOID : String → Bool) (o : UnsignedCorim) (s : String) (p : Profile),
       NewProfile isURI isOID s = some p →
       (UnsignedCorim.AddProfile isURI isOID o s).2 = true
         ∧ (UnsignedCorim.AddProfile isURI isOID o s).1.Profiles
             = some ((o.Profiles.getD []) ++ [p])) := by
  refine ⟨?_, ?_, ?_⟩
  · intro isURI isOID s
    cases hu : isURI s <;> cases ho : isOID s <;> simp [NewProfile, hu, ho]
  · intro isURI isOID o s h1 h2
    simp [UnsignedCorim.AddProfile, NewProfile, h1, h2]
  · intro isURI isOID o s p hp
    rcases hq : o.Profiles with _ | qs <;>
      simp [UnsignedCorim.AddProfile, hp, hq, Option.getD]

/-- C8 witness: the parse theorem applied to concrete matchers and strings
from the spec — "not-a-uri-not-an-oid" fails, a URI and an OID string each
succeed and append. -/
theorem addProfile_parse_witness :
    ((UnsignedCorim.AddProfile uriW oidW NewUnsignedCorim "not-a-uri-not-an-oid").2 = false
      ∧ (UnsignedCorim.AddProfile uriW oidW NewUnsignedCorim "not-a-uri-not-an-oid").1
          = NewUnsignedCorim)
    ∧ ((UnsignedCorim.AddProfile uriW oidW NewUnsignedCorim "https://example.org/profile").2 = true
      ∧ (UnsignedCorim.AddProfile uriW oidW NewUnsignedCorim "https://example.org/profile").1.Profiles
          = some ((NewUnsignedCorim.Profiles.getD [])
              ++ [Profile.uri "https://example.org/profile"]))
    ∧ ((UnsignedCorim.AddProfile uriW oidW NewUnsignedCorim "2.16.840.1.101.3.4").2 = true
      ∧ (UnsignedCorim.AddProfile uriW oidW NewUnsignedCorim "2.16.840.1.101.3.4").1.Profiles
          = some ((NewUnsignedCorim.Profiles.getD [])
              ++ [Profile.oid "2.16.840.1.101.3.4"])) :=
  ⟨addProfile_parse.2.1 uriW oidW NewUnsignedCorim "not-a-uri-not-an-oid"
      (by decide) (by decide),
   addProfile_parse.2.2 uriW oidW NewUnsignedCorim "https://example.org/profile"
      (Profile.uri "https://example.org/profile") (by decide),
   addProfile_parse.2.2 uriW oidW NewUnsignedCorim "2.16.840.1.101.3.4"
      (Profile.oid "2.16.840.1.101.3.4") (by decide)⟩

/-- C9: decode performs no semantic validation — the wire form of an
aggregate with an empty tag list decodes successfully in both formats, yet
the resulting container fails `Valid` with the "no tags" error. -/
theorem decode_no_semantic_validation :
    (FromCBOR [(0, WireVal.vid (TagID.str "x")), (1, WireVal.vtags [])]
       = some { ID := TagID.str "x", Tags := [], DependentRims := none, Profiles := none })
    ∧ (FromJSON [("corim-id", WireVal.vid (TagID.str "x")), ("tags", WireVal.vtags [])]
       = some { ID := TagID.str "x", Tags := [], DependentRims := none, Profiles := none })
    ∧ (UnsignedCorim.Valid
        { ID := TagID.str "x", Tags := [], DependentRims := none, Profiles := none }
       = some CorimError.noTags) :=
  ⟨rfl, rfl, rfl⟩

/-- C10: every builder operation on a nil receiver is a safe no-op that
returns nil, so an already-failed chain continues as no-ops rather than
crashing. -/
theorem nil_receiver_noop :
    (∀ v : TagIDInput, SetIDPtr none v = none)
    ∧ (∀ c : Comid, AddComidPtr none c = none)
    ∧ (∀ c : SoftwareIdentity, AddCoswidPtr none c = none)
    ∧ (∀ (href : String) (tp : Option HashEntry),
        AddDependentRimPtr none href tp = none)
    ∧ (∀ (isURI isOID : String → Bool) (s : String),
        AddProfilePtr isURI isOID none s = none) :=
  ⟨fun _ => rfl, fun _ => rfl, fun _ => rfl, fun _ _ => rfl, fun _ _ _ => rfl⟩
